import Mathlib

/-!
Formal model of the Workshop-Blockchain repository.

The repository's executable logic lives in two files:

* `scripts/estimate-cost.js` — the gas/cost estimator: it asks the node for a
  gas estimate, prints it, asks for current fee data, prints the legacy
  `gasPrice` field formatted at gwei scale, multiplies the two BigInt values,
  and prints the product formatted at ether scale.  `main()` resolves to
  `process.exit(0)` and any thrown error is logged to the error stream
  followed by `process.exit(1)`.
* `hardhat.config.js` — destructures `require('./secrets.json')` at module
  top level, before the exported network table is even built.

The contract `Box` (one `uint256 _value` state variable, a `store` function
guarded by `require(value > 0)`, and a view accessor `retrieve`) is given in
the repository's workshop text and is modelled as a state-transition function.

JavaScript BigInt values are modelled as `Nat` (all quantities here are
non-negative); fallible RPC calls are modelled as `Except String` results
supplied by an oracle, and a run is the record of performed calls, printed
lines, error output and exit code.
-/

set_option autoImplicit false

namespace Workshop

/-- Decimal rendering of a non-negative JavaScript BigInt, as produced by
`BigInt.prototype.toString(10)`: the usual base-10 numeral with no leading
zeros (and the single digit `0` for zero). -/
def bigintToString (n : Nat) : String :=
  Nat.repr n

/-- Leading-zero trim loop of the ethers fixed-point renderer: while the
first character is `0` and the second is not the decimal point, drop the
first character (leaving at least one whole digit). -/
def trimLeadingZeros : List Char → List Char
  | '0' :: c :: rest => if c = '.' then '0' :: c :: rest else trimLeadingZeros (c :: rest)
  | s => s

/-- Trailing-zero trim loop of the ethers fixed-point renderer, applied to a
reversed character list: while the last character is `0` and the one before
it is not the decimal point, drop the last character (leaving at least one
fractional digit). -/
def trimTrailingZerosRev : List Char → List Char
  | '0' :: c :: rest => if c = '.' then '0' :: c :: rest else trimTrailingZerosRev (c :: rest)
  | s => s

/-- Model of `ethers.formatUnits(value, decimals)` for a non-negative value
(the ethers v6 fixed-point `toString`): render the integer in base 10, left
pad with zeros until its length exceeds `decimals`, insert the decimal point
`decimals` places from the right, then trim superfluous leading and trailing
zeros, always keeping at least one digit on each side of the point.  With
`decimals = 0` the plain numeral is returned. -/
def formatUnits (value : Nat) (decimals : Nat) : String :=
  let str := (bigintToString value).data
  if decimals = 0 then
    String.mk str
  else
    let padded := List.replicate (decimals + 1 - str.length) '0' ++ str
    let index := padded.length - decimals
    let dotted := padded.take index ++ '.' :: padded.drop index
    String.mk ((trimTrailingZerosRev (trimLeadingZeros dotted).reverse).reverse)

/-- Model of `ethers.formatEther`, i.e. `formatUnits` at the fixed ether
scale of 10^18 smallest units (wei) per display unit. -/
def formatEther (value : Nat) : String :=
  formatUnits value 18

/-- Fee data returned by `provider.getFeeData()`; the script reads only the
legacy `gasPrice` field (smallest units per gas unit). -/
structure FeeData where
  gasPrice : Nat
  deriving DecidableEq, Repr

/-- The responses of the two node RPC calls the estimator performs; each call
either returns a value or throws. -/
structure NodeOracle where
  estimateGasResult : Except String Nat
  feeDataResult : Except String FeeData

/-- The RPC calls the estimator can perform, in the vocabulary of the
script. -/
inductive RpcCall where
  | estimateGas
  | getFeeData
  deriving DecidableEq, Repr

/-- Observable outcome of one run of the script: RPC calls performed in
order, lines written by `console.log`, output of `console.error`, and the
process exit code. -/
structure RunOutcome where
  calls : List RpcCall
  stdout : List String
  stderr : List String
  exitCode : Nat
  deriving DecidableEq, Repr

/-- Line 20 of `scripts/estimate-cost.js`:
`const totalCost = estimatedGas * gasPrice;` — BigInt multiplication, exact
at every magnitude. -/
def totalCost (estimatedGas gasPrice : Nat) : Nat :=
  estimatedGas * gasPrice

/-- The `main` function of `scripts/estimate-cost.js` together with its
top-level `.then`/`.catch` harness, as a function of the node's responses:
estimate gas (on a throw: log the error, exit 1); print the estimate; fetch
fee data (on a throw: log the error, exit 1); print the legacy gas price at
gwei scale; multiply; print the product at ether scale; exit 0. -/
def mainRun (node : NodeOracle) : RunOutcome :=
  match node.estimateGasResult with
  | .error e =>
    { calls := [.estimateGas], stdout := [], stderr := [e], exitCode := 1 }
  | .ok estimatedGas =>
    let gasLine := "Estimated gas: " ++ bigintToString estimatedGas
    match node.feeDataResult with
    | .error e =>
      { calls := [.estimateGas, .getFeeData], stdout := [gasLine],
        stderr := [e], exitCode := 1 }
    | .ok feeData =>
      let gasPrice := feeData.gasPrice
      let priceLine := "Current gas price: " ++ formatUnits gasPrice 9 ++ " gwei"
      let costLine :=
        "Estimated deployment cost: " ++ formatEther (totalCost estimatedGas gasPrice) ++ " ETH"
      { calls := [.estimateGas, .getFeeData], stdout := [gasLine, priceLine, costLine],
        stderr := [], exitCode := 0 }

/-- Event declared by the `Box` contract: `event ValueChanged(uint256 value)`. -/
inductive BoxEvent where
  | ValueChanged (value : Nat)
  deriving DecidableEq, Repr

/-- Storage of the `Box` contract: the single state variable
`uint256 private _value`. -/
structure BoxState where
  _value : Nat
  deriving DecidableEq, Repr

/-- Contract storage at deployment: a `uint256` state variable with no
initializer starts at the EVM default of zero. -/
def initialBox : BoxState :=
  { _value := 0 }

/-- The `store(uint256 value)` function of `Box`:
`require(value > 0, "Value must be greater than 0")`, then `_value = value`
and `emit ValueChanged(value)`.  A failed `require` reverts the call, which
is modelled as an error result carrying the revert reason. -/
def BoxState.store (s : BoxState) (value : Nat) : Except String (BoxState × List BoxEvent) :=
  if value > 0 then
    .ok ({ s with _value := value }, [.ValueChanged value])
  else
    .error ("Value must be greater than 0")

/-- Net effect of a `store` call on contract storage: a successful call
installs the new state, a reverted call leaves storage exactly as it was. -/
def BoxState.applyStore (s : BoxState) (value : Nat) : BoxState :=
  match s.store value with
  | .ok (s2, _) => s2
  | .error _ => s

/-- The `retrieve()` view function of `Box`: `return _value;` — it reads the
state variable and, being a view function, leaves storage untouched; the
model makes the (unchanged) post-state explicit. -/
def BoxState.retrieve (s : BoxState) : Nat × BoxState :=
  (s._value, s)

/-- Contents of `secrets.json`: the wallet seed phrase and the node-gateway
API key. -/
structure Secrets where
  mnemonic : String
  alchemyApiKey : String
  deriving DecidableEq, Repr

/-- One entry of the exported `networks` table of `hardhat.config.js`. -/
structure NetworkConfig where
  url : String
  accountsMnemonic : String
  deriving DecidableEq, Repr

/-- The object exported by `hardhat.config.js`. -/
structure HardhatConfig where
  solidity : String
  sepolia : NetworkConfig
  deriving DecidableEq, Repr

/-- Configuration errors: the credentials file is missing or malformed, so
the `require('./secrets.json')` on line 3 of `hardhat.config.js` throws. -/
inductive ConfigError where
  | secretsUnreadable (detail : String)
  deriving DecidableEq, Repr

/-- Module evaluation of `hardhat.config.js`: line 3 destructures
`require('./secrets.json')` unconditionally — before the exported object,
including its network table, exists.  If reading the credentials file
throws, module evaluation fails with that configuration error; otherwise the
exported object is built from the secrets. -/
def loadHardhatConfig (secretsFile : Except String Secrets) : Except ConfigError HardhatConfig :=
  match secretsFile with
  | .error e => .error (.secretsUnreadable e)
  | .ok s =>
    .ok { solidity := "0.8.28",
          sepolia := { url := "https://eth-sepolia.g.alchemy.com/v2/" ++ s.alchemyApiKey,
                       accountsMnemonic := s.mnemonic } }

/-- Modelled from the spec: the development framework's task runner (the
`npx hardhat run --network <name> <script>` entry point is not part of this
repository).  Per the spec, the configuration file is "consumed at process
start": every invocation first evaluates the config module and only then
runs the selected script against the selected network, whatever that network
is. -/
def hardhatInvoke (secretsFile : Except String Secrets) (network : String)
    (script : HardhatConfig → String → Except String Unit) :
    Except ConfigError (Except String Unit) :=
  match loadHardhatConfig secretsFile with
  | .error e => .error e
  | .ok cfg => .ok (script cfg network)

/-- A reverted `store(0)` call leaves storage unchanged. -/
theorem BoxState.applyStore_zero (s : BoxState) : s.applyStore 0 = s := rfl

/-- Folding attempted `store` calls over a list in which every attempted
value is zero (so every call reverts) never changes storage. -/
theorem foldl_applyStore_all_zero (vs : List Nat) (s : BoxState)
    (h : ∀ v ∈ vs, v = 0) : vs.foldl BoxState.applyStore s = s := by
  induction vs generalizing s with
  | nil => rfl
  | cons v vs ih =>
    have hv : v = 0 := h v (List.mem_cons_self v vs)
    subst hv
    rw [List.foldl_cons, BoxState.applyStore_zero]
    exact ih s fun w hw => h w (List.mem_cons_of_mem 0 hw)

/-- C1: for every non-negative integer gas estimate G and unit price P, the
total cost the estimator computes in smallest-unit terms is exactly G * P
(BigInt multiplication, no rounding loss at any magnitude), and the printed
cost line is the ether-scale rendering of exactly that product. -/
theorem estimator_total_cost_exact (node : NodeOracle) (G P : Nat)
    (h1 : node.estimateGasResult = .ok G)
    (h2 : node.feeDataResult = .ok { gasPrice := P }) :
    totalCost G P = G * P ∧
    (mainRun node).stdout =
      ["Estimated gas: " ++ bigintToString G,
       "Current gas price: " ++ formatUnits P 9 ++ " gwei",
       "Estimated deployment cost: " ++ formatEther (G * P) ++ " ETH"] := by
  refine ⟨rfl, ?_⟩
  simp [mainRun, h1, h2, totalCost]

/-- Witness for C1 at a gas estimate of 2^53 + 1 = 9007199254740993, beyond
the range that double-precision floating point represents exactly: the total
is the exact product 27021597764222979 (a double would round it to
27021597764222980). -/
theorem estimator_total_cost_exact_witness :
    totalCost 9007199254740993 3 = 27021597764222979 ∧
    (mainRun { estimateGasResult := .ok 9007199254740993,
               feeDataResult := .ok { gasPrice := 3 } }).stdout =
      ["Estimated gas: 9007199254740993",
       "Current gas price: 0.000000003 gwei",
       "Estimated deployment cost: 0.027021597764222979 ETH"] := by
  have h := estimator_total_cost_exact
    { estimateGasResult := .ok 9007199254740993, feeDataResult := .ok { gasPrice := 3 } }
    9007199254740993 3 rfl rfl
  refine ⟨h.1.trans (by decide), ?_⟩
  rw [h.2]
  decide

/-- C2 counterexample: converting exactly 10^18 smallest units prints the
string "1.0", not "1", and converting 0 prints "0.0", not "0" — the ethers
renderer always keeps one digit after the decimal point. -/
theorem display_scale_strings_counterexample :
    formatEther (10 ^ 18) ≠ "1" ∧ formatEther 0 ≠ "0" ∧
    formatEther (10 ^ 18) = "1.0" ∧ formatEther 0 = "0.0" := by
  decide

/-- C2 (amended): the display-scale conversion is the pure function
`formatEther` of the smallest-unit amount at the fixed 10^18 scale;
converting exactly 10^18 smallest units prints exactly "1.0" and converting
0 smallest units prints exactly "0.0". -/
theorem display_scale_strings :
    formatEther (10 ^ 18) = "1.0" ∧ formatEther 0 = "0.0" := by
  decide

/-- C3: when the gas-estimation call fails, the estimator performs no
fee-fetch call, prints no output (so no combination step happens), writes
the error to the error stream, and exits with status 1. -/
theorem estimation_failure_aborts (node : NodeOracle) (e : String)
    (h : node.estimateGasResult = .error e) :
    (mainRun node).calls = [RpcCall.estimateGas] ∧
    RpcCall.getFeeData ∉ (mainRun node).calls ∧
    (mainRun node).stdout = [] ∧
    (mainRun node).stderr = [e] ∧
    (mainRun node).exitCode = 1 := by
  simp [mainRun, h]

/-- Node whose estimation call is rejected with a simulated revert. -/
def revertingOracle : NodeOracle :=
  { estimateGasResult := .error ("execution reverted"),
    feeDataResult := .ok { gasPrice := 5 } }

/-- Witness for C3 at a concrete simulated-revert rejection. -/
theorem estimation_failure_aborts_witness :
    (mainRun revertingOracle).calls = [RpcCall.estimateGas] ∧
    RpcCall.getFeeData ∉ (mainRun revertingOracle).calls ∧
    (mainRun revertingOracle).stdout = [] ∧
    (mainRun revertingOracle).stderr = ["execution reverted"] ∧
    (mainRun revertingOracle).exitCode = 1 :=
  estimation_failure_aborts revertingOracle ("execution reverted") rfl

/-- C4: when the fee-fetch call fails after a successful gas estimation, the
run prints only the gas-estimate line — in particular no total-cost line, so
the estimate is never combined with a stale or zero price — writes the error
to the error stream, and exits with status 1. -/
theorem fee_fetch_failure_aborts (node : NodeOracle) (G : Nat) (e : String)
    (h1 : node.estimateGasResult = .ok G)
    (h2 : node.feeDataResult = .error e) :
    (mainRun node).calls = [RpcCall.estimateGas, RpcCall.getFeeData] ∧
    (mainRun node).stdout = ["Estimated gas: " ++ bigintToString G] ∧
    (mainRun node).stderr = [e] ∧
    (mainRun node).exitCode = 1 := by
  simp [mainRun, h1, h2]

/-- Node whose estimation succeeds but whose fee fetch fails. -/
def feeFailureOracle : NodeOracle :=
  { estimateGasResult := .ok 21000,
    feeDataResult := .error ("could not fetch fee data") }

/-- Witness for C4 at a concrete successful estimate and failing fee fetch. -/
theorem fee_fetch_failure_aborts_witness :
    (mainRun feeFailureOracle).calls = [RpcCall.estimateGas, RpcCall.getFeeData] ∧
    (mainRun feeFailureOracle).stdout = ["Estimated gas: " ++ bigintToString 21000] ∧
    (mainRun feeFailureOracle).stderr = ["could not fetch fee data"] ∧
    (mainRun feeFailureOracle).exitCode = 1 :=
  fee_fetch_failure_aborts feeFailureOracle 21000 ("could not fetch fee data") rfl rfl

/-- C5: on the pair G = 500000, P = 20000000000 the estimator computes a
total of 10000000000000000 smallest units and prints the top-level display
cost "0.01". -/
theorem end_to_end_example_run :
    totalCost 500000 20000000000 = 10000000000000000 ∧
    mainRun { estimateGasResult := .ok 500000,
              feeDataResult := .ok { gasPrice := 20000000000 } } =
      { calls := [RpcCall.estimateGas, RpcCall.getFeeData],
        stdout := ["Estimated gas: 500000",
                   "Current gas price: 20.0 gwei",
                   "Estimated deployment cost: 0.01 ETH"],
        stderr := [],
        exitCode := 0 } := by
  decide

/-- C6 counterexample: with a gas estimate of 0 (here at price 7) the total
is 0, but the printed top-level cost is "0.0", not "0" as claimed. -/
theorem zero_estimate_print_counterexample :
    totalCost 0 7 = 0 ∧
    formatEther (totalCost 0 7) = "0.0" ∧
    formatEther (totalCost 0 7) ≠ "0" ∧
    (mainRun { estimateGasResult := .ok 0, feeDataResult := .ok { gasPrice := 7 } }).stdout =
      ["Estimated gas: 0",
       "Current gas price: 0.000000007 gwei",
       "Estimated deployment cost: 0.0 ETH"] := by
  decide

/-- C6 (amended): for a gas estimate of 0 and every unit price P, the
computed total cost is 0 smallest units and the printed top-level cost is
exactly "0.0". -/
theorem zero_estimate_zero_cost (node : NodeOracle) (P : Nat)
    (h1 : node.estimateGasResult = .ok 0)
    (h2 : node.feeDataResult = .ok { gasPrice := P }) :
    totalCost 0 P = 0 ∧
    (mainRun node).stdout =
      ["Estimated gas: 0",
       "Current gas price: " ++ formatUnits P 9 ++ " gwei",
       "Estimated deployment cost: 0.0 ETH"] := by
  have hz : totalCost 0 P = 0 := Nat.zero_mul P
  refine ⟨hz, ?_⟩
  simp only [mainRun, h1, h2, hz]
  rfl

/-- Witness for C6 at the concrete price 12. -/
theorem zero_estimate_zero_cost_witness :
    totalCost 0 12 = 0 ∧
    (mainRun { estimateGasResult := .ok 0, feeDataResult := .ok { gasPrice := 12 } }).stdout =
      ["Estimated gas: 0",
       "Current gas price: " ++ formatUnits 12 9 ++ " gwei",
       "Estimated deployment cost: 0.0 ETH"] :=
  zero_estimate_zero_cost _ 12 rfl rfl

/-- C7: the process exit code is 0 exactly when both calls return without a
thrown error (and nothing is written to the error stream), and on any thrown
error the exit code is 1 with the error detail written to the error stream —
uniformly for both call sites, with no recovery or retry. -/
theorem exit_code_discipline (node : NodeOracle) :
    ((∃ G, node.estimateGasResult = .ok G) ∧ (∃ fd, node.feeDataResult = .ok fd) →
      (mainRun node).exitCode = 0 ∧ (mainRun node).stderr = []) ∧
    (∀ e, node.estimateGasResult = .error e →
      (mainRun node).exitCode = 1 ∧ (mainRun node).stderr = [e]) ∧
    (∀ G e, node.estimateGasResult = .ok G → node.feeDataResult = .error e →
      (mainRun node).exitCode = 1 ∧ (mainRun node).stderr = [e]) := by
  refine ⟨?_, ?_, ?_⟩
  · rintro ⟨⟨G, hG⟩, ⟨fd, hfd⟩⟩
    simp [mainRun, hG, hfd]
  · intro e he
    simp [mainRun, he]
  · intro G e hG hfe
    simp [mainRun, hG, hfe]

/-- Witness for C7 on a concrete fully successful run. -/
theorem exit_code_discipline_witness :
    (mainRun { estimateGasResult := .ok 21000,
               feeDataResult := .ok { gasPrice := 1000000000 } }).exitCode = 0 ∧
    (mainRun { estimateGasResult := .ok 21000,
               feeDataResult := .ok { gasPrice := 1000000000 } }).stderr = [] :=
  (exit_code_discipline _).1 ⟨⟨21000, rfl⟩, ⟨{ gasPrice := 1000000000 }, rfl⟩⟩

/-- C8: a `store(v)` call succeeds — producing a state whose stored value is
v — if and only if v > 0; the call with v = 0 reverts with the require
message and leaves storage unchanged. -/
theorem store_validation (s : BoxState) (v : Nat) :
    ((∃ s2 evs, s.store v = Except.ok (s2, evs) ∧ s2._value = v) ↔ 0 < v) ∧
    (v = 0 →
      s.store v = Except.error ("Value must be greater than 0") ∧ s.applyStore v = s) := by
  constructor
  · constructor
    · rintro ⟨s2, evs, hok, -⟩
      by_contra hv
      simp [BoxState.store, hv] at hok
    · intro hv
      exact ⟨{ s with _value := v }, [BoxEvent.ValueChanged v],
        by simp [BoxState.store, hv], rfl⟩
  · rintro rfl
    exact ⟨rfl, rfl⟩

/-- Witness for C8: `store(0)` on a fresh Box reverts and changes nothing,
and `store(33)` succeeds storing 33. -/
theorem store_validation_witness :
    (initialBox.store 0 = Except.error ("Value must be greater than 0") ∧
     initialBox.applyStore 0 = initialBox) ∧
    (∃ s2 evs, initialBox.store 33 = Except.ok (s2, evs) ∧ s2._value = 33) :=
  ⟨(store_validation initialBox 0).2 rfl,
   (store_validation initialBox 33).1.mpr (by decide)⟩

/-- C9: `retrieve` on the freshly deployed Box returns the default 0 and
never modifies state; after a successful `store(v)` it returns exactly v;
and after any sequence of reverted store attempts (all attempted values
zero) it still returns 0. -/
theorem retrieve_behaviour :
    initialBox.retrieve = (0, initialBox) ∧
    (∀ s : BoxState, (s.retrieve).2 = s) ∧
    (∀ (s : BoxState) (v : Nat), 0 < v → ((s.applyStore v).retrieve).1 = v) ∧
    (∀ vs : List Nat, (∀ v ∈ vs, v = 0) →
      ((vs.foldl BoxState.applyStore initialBox).retrieve).1 = 0) := by
  refine ⟨rfl, fun s => rfl, ?_, ?_⟩
  · intro s v hv
    simp [BoxState.applyStore, BoxState.store, BoxState.retrieve, hv]
  · intro vs h
    rw [foldl_applyStore_all_zero vs initialBox h]
    rfl

/-- Witness for C9: after `store(33)` the accessor returns 33, and after
three reverted `store(0)` attempts it still returns 0. -/
theorem retrieve_behaviour_witness :
    ((initialBox.applyStore 33).retrieve).1 = 33 ∧
    (([0, 0, 0].foldl BoxState.applyStore initialBox).retrieve).1 = 0 :=
  ⟨retrieve_behaviour.2.2.1 initialBox 33 (by decide),
   retrieve_behaviour.2.2.2 [0, 0, 0] (by decide)⟩

/-- C10: when the credentials file cannot be read, evaluating
`hardhat.config.js` fails with a configuration error, and therefore every
script invocation fails at config-load time — for every selected network
(including a local one that needs no credentials) and every script, the
script never runs. -/
theorem config_load_requires_secrets (e : String) (network : String)
    (script : HardhatConfig → String → Except String Unit) :
    loadHardhatConfig (Except.error e) = Except.error (ConfigError.secretsUnreadable e) ∧
    hardhatInvoke (Except.error e) network script =
      Except.error (ConfigError.secretsUnreadable e) :=
  ⟨rfl, rfl⟩

end Workshop
